import Mathlib

/-!
Shallow embedding of `src/line_printer.cc` (a terminal status-line renderer).

The C++ class `LinePrinter` is modelled as a record of its mutable fields;
each member function becomes a Lean function from a configuration and a state
to a pair `(new state, bytes written to the real output stream)`.  The
configuration collects quantities fixed for the process lifetime: the result
of the terminal probe (`smart_terminal_`), the two cached environment
variables driving `GetReformatMode` / `GetStatusPrintMode`, and the terminal
width as reported by the `TIOCGWINSZ` ioctl (`Option Nat`, `none` meaning the
ioctl failed or reported zero columns).  The POSIX (`#else`) code paths are
the ones embedded.
-/

/-- C++ `enum LineType { FULL, ELIDE }` from the header (used at
`line_printer.cc` lines 101, 121). -/
inductive LineType where
  | FULL
  | ELIDE
deriving DecidableEq, Repr

/-- C++ `enum class e_reformat_mode` (values used at lines 199-209). -/
inductive e_reformat_mode where
  | none
  | pretty
deriving DecidableEq, Repr

/-- C++ `enum class e_status_print_mode` (values used at lines 211-223). -/
inductive e_status_print_mode where
  | singleline
  | multiline
  | scrolling
deriving DecidableEq, Repr

/-- The mutable fields of class `LinePrinter`. -/
structure LinePrinter where
  have_blank_line_ : Bool
  console_locked_ : Bool
  line_buffer_ : String
  line_type_ : LineType
  output_buffer_ : String
deriving DecidableEq, Repr

/-- Constructor state (`line_printer.cc` line 37): `have_blank_line_(true),
console_locked_(false)`; the buffers start empty.  `line_type_` is
uninitialized in C++ and only ever read after being written, so any value
works; we pick `FULL`. -/
def initState : LinePrinter :=
  { have_blank_line_ := true
    console_locked_ := false
    line_buffer_ := ""
    line_type_ := LineType.FULL
    output_buffer_ := "" }

/-- Process-wide quantities that the C++ code reads from the environment or
the terminal and that stay fixed across the calls we model. -/
structure Config where
  smart_terminal_ : Bool
  /-- cached value of `getenv("DSICILIA_NINJA_REFORMAT_MODE")` -/
  reformatEnv : Option String
  /-- cached value of `getenv("DSICILIA_NINJA_STATUS_PRINT_MODE")` -/
  statusEnv : Option String
  /-- The `TIOCGWINSZ` result: `some w` when the ioctl succeeds with `w ≠ 0`
  columns, `none` otherwise (lines 146-149). -/
  termWidth : Option Nat
deriving DecidableEq, Repr

/-- Embeds `LinePrinter::GetReformatMode` (lines 199-209): unset → `none`,
`"pretty"` → `pretty`, anything else → `none`.  The C++ `static` local
caches the result; we model the cached environment value as an argument. -/
def GetReformatMode (env : Option String) : e_reformat_mode :=
  match env with
  | Option.none => e_reformat_mode.none
  | Option.some v =>
      if v = "pretty" then e_reformat_mode.pretty else e_reformat_mode.none

/-- Embeds `LinePrinter::GetStatusPrintMode` (lines 211-223): unset → `singleline`,
`"multiline"` → `multiline`, `"scrolling"` → `scrolling`, anything else →
`singleline`. -/
def GetStatusPrintMode (env : Option String) : e_status_print_mode :=
  match env with
  | Option.none => e_status_print_mode.singleline
  | Option.some v =>
      if v = "multiline" then e_status_print_mode.multiline
      else if v = "scrolling" then e_status_print_mode.scrolling
      else e_status_print_mode.singleline

/-! ### The regex engine behind `CustomFormat`

`CustomFormat` (lines 73-92) applies twelve `std::regex_replace` calls in
sequence.  The patterns only use literals, `.`, character classes, `*`, `+`
and capture groups around a single starred or plussed atom, so we embed the
ECMAScript matching semantics (leftmost match, greedy with backtracking,
replace all non-overlapping occurrences, `$i` group references) for exactly
that fragment. -/

/-- A single-character regex atom: a literal, `.` (any character other than a
line terminator; the strings involved contain none beyond `'\n'`), or a
character class `[...]` / `[^...]` with its members listed. -/
inductive RAtom where
  | lit (c : Char)
  | dot
  | cls (neg : Bool) (cs : List Char)
deriving DecidableEq, Repr

/-- Does atom `a` match character `d`? -/
def RAtom.matchesChar : RAtom → Char → Bool
  | RAtom.lit c, d => c = d
  | RAtom.dot, d => d ≠ '\n'
  | RAtom.cls neg cs, d => if neg then ¬ cs.contains d else cs.contains d

/-- One element of a regex: a bare atom, a greedy `a*` or `a+`, or a capture
group `(a*)` / `(a+)` (the only group shapes the twelve patterns use). -/
inductive RElem where
  | one (a : RAtom)
  | star (a : RAtom)
  | plus (a : RAtom)
  | gstar (a : RAtom)
  | gplus (a : RAtom)
deriving DecidableEq, Repr

/-- Length of the maximal run of characters matching `a` at the head of the
input (the first thing a greedy `a*` or `a+` grabs before backtracking). -/
def countAtom (a : RAtom) : List Char → Nat
  | [] => 0
  | c :: rest => if a.matchesChar c then countAtom a rest + 1 else 0

/-- All ways to match a regex (element list) against a prefix of `s`, in
ECMAScript preference order (greedy repetitions try longer first); each
result is the remaining suffix together with the capture-group texts in
group order.  The head of the list is the match the engine reports. -/
def matchElems : List RElem → List Char → List (List Char × List (List Char))
  | [], s => [(s, [])]
  | RElem.one a :: es, s =>
      match s with
      | [] => []
      | c :: rest => if a.matchesChar c then matchElems es rest else []
  | RElem.star a :: es, s =>
      let m := countAtom a s
      (List.range (m + 1)).flatMap (fun i => matchElems es (s.drop (m - i)))
  | RElem.plus a :: es, s =>
      let m := countAtom a s
      (List.range m).flatMap (fun i => matchElems es (s.drop (m - i)))
  | RElem.gstar a :: es, s =>
      let m := countAtom a s
      (List.range (m + 1)).flatMap (fun i =>
        (matchElems es (s.drop (m - i))).map
          (fun r => (r.1, s.take (m - i) :: r.2)))
  | RElem.gplus a :: es, s =>
      let m := countAtom a s
      (List.range m).flatMap (fun i =>
        (matchElems es (s.drop (m - i))).map
          (fun r => (r.1, s.take (m - i) :: r.2)))

/-- The preferred match of pattern `p` at the head of `s`: number of
characters consumed and the captures, if any match exists. -/
def matchHere (p : List RElem) (s : List Char) :
    Option (Nat × List (List Char)) :=
  (matchElems p s).head?.map (fun r => (s.length - r.1.length, r.2))

/-- A piece of a `std::regex_replace` format string: literal text or a `$i`
group reference (1-based). -/
inductive RepPiece where
  | str (t : List Char)
  | ref (i : Nat)
deriving DecidableEq, Repr

/-- Instantiate a format string with the captures of a match. -/
def applyRep (rep : List RepPiece) (caps : List (List Char)) : List Char :=
  rep.flatMap (fun piece =>
    match piece with
    | RepPiece.str t => t
    | RepPiece.ref i => caps.getD (i - 1) [])

/-- Worker for `replaceAll`, structurally recursive on a fuel argument (one
unit per character position, enough because every successful match consumes
at least one character for these patterns and a zero-length match falls back
to copying one character). -/
def replaceAllFuel (p : List RElem) (rep : List RepPiece) :
    Nat → List Char → List Char
  | 0, s => s
  | _ + 1, [] => []
  | fuel + 1, c :: rest =>
      match matchHere p (c :: rest) with
      | Option.none => c :: replaceAllFuel p rep fuel rest
      | Option.some r =>
          if r.1 = 0 then c :: replaceAllFuel p rep fuel rest
          else applyRep rep r.2 ++ replaceAllFuel p rep fuel ((c :: rest).drop r.1)

/-- Embeds `std::regex_replace(s, p, rep)`: scan left to right, replace every
non-overlapping occurrence of `p`, copy everything else through. -/
def replaceAll (p : List RElem) (rep : List RepPiece) (s : List Char) :
    List Char :=
  replaceAllFuel p rep s.length s

/-- Literal part of a pattern: one `RElem.one (RAtom.lit c)` per character. -/
def lits (s : String) : List RElem :=
  s.toList.map (fun c => RElem.one (RAtom.lit c))

/-- The character class `[ 0-9]` of the progress-counter pattern. -/
def digitSp : List Char :=
  [' ', '0', '1', '2', '3', '4', '5', '6', '7', '8', '9']

/-- The twelve `(pattern, format)` pairs of `CustomFormat`, in source order
(lines 75-90). -/
def customRules : List (List RElem × List RepPiece) :=
  [ (lits "Building flatbuffer for " ++ [RElem.gstar RAtom.dot],
     [RepPiece.str "\u001B[35mbuilding flatbuffer\u001B[0m \u001B[34m".toList,
      RepPiece.ref 1, RepPiece.str "\u001B[0m".toList]),
    (lits "Building rnl definition " ++ [RElem.gstar RAtom.dot],
     [RepPiece.str "\u001B[36mbuilding rnl script\u001B[0m \u001B[34m".toList,
      RepPiece.ref 1, RepPiece.str "\u001B[0m".toList]),
    (lits "Building CXX" ++
       [RElem.gstar RAtom.dot, RElem.one (RAtom.lit ' '),
        RElem.gplus (RAtom.cls true [' '])],
     [RepPiece.str "\u001B[32mbuilding c++".toList, RepPiece.ref 1,
      RepPiece.str " \u001B[34m".toList, RepPiece.ref 2,
      RepPiece.str "\u001B[0m".toList]),
    (lits "Linking CXX static library" ++
       [RElem.gstar RAtom.dot, RElem.one (RAtom.lit ' '),
        RElem.gplus (RAtom.cls true [' '])],
     [RepPiece.str "\u001B[33;1mlinking: c++ static".toList, RepPiece.ref 1,
      RepPiece.str " \u001B[34;1m".toList, RepPiece.ref 2,
      RepPiece.str "\u001B[0m".toList]),
    (lits "Building C" ++
       [RElem.gstar RAtom.dot, RElem.one (RAtom.lit ' '),
        RElem.gplus (RAtom.cls true [' '])],
     [RepPiece.str "\u001B[32mbuilding c  ".toList, RepPiece.ref 1,
      RepPiece.str " \u001B[34m".toList, RepPiece.ref 2,
      RepPiece.str "\u001B[0m".toList]),
    (lits "Linking CXX executable" ++
       [RElem.gstar RAtom.dot, RElem.one (RAtom.lit ' '),
        RElem.gplus (RAtom.cls true [' '])],
     [RepPiece.str "\u001B[33;1mlinking: c++ binary".toList, RepPiece.ref 1,
      RepPiece.str " \u001B[34;1m".toList, RepPiece.ref 2,
      RepPiece.str "\u001B[0m".toList]),
    (lits "Linking C static library" ++
       [RElem.gstar RAtom.dot, RElem.one (RAtom.lit ' '),
        RElem.gplus (RAtom.cls true [' '])],
     [RepPiece.str "\u001B[33;1mlinking: c   static".toList, RepPiece.ref 1,
      RepPiece.str " \u001B[34;1m".toList, RepPiece.ref 2,
      RepPiece.str "\u001B[0m".toList]),
    (lits "Linking C" ++
       [RElem.gstar RAtom.dot, RElem.one (RAtom.lit ' '),
        RElem.gplus (RAtom.cls true [' '])],
     [RepPiece.str "\u001B[33;1mlinking: c  ".toList, RepPiece.ref 1,
      RepPiece.str " \u001B[34;1m".toList, RepPiece.ref 2,
      RepPiece.str "\u001B[0m".toList]),
    ([RElem.plus (RAtom.cls true ['/', ' '])] ++ lits ".dir/", []),
    (lits "CMakeFiles/", []),
    (lits ".cpp.o", [RepPiece.str ".cpp".toList]),
    ([RElem.one (RAtom.lit '[')] ++
       [RElem.gplus (RAtom.cls false digitSp), RElem.one (RAtom.lit '/'),
        RElem.gplus (RAtom.cls false digitSp), RElem.one (RAtom.lit ']')],
     [RepPiece.str "[\u001B[37;1m".toList, RepPiece.ref 1,
      RepPiece.str "\u001B[0m/\u001B[37m".toList, RepPiece.ref 2,
      RepPiece.str "\u001B[0m]".toList]) ]

/-- Embeds `CustomFormat` (lines 73-92): the twelve substitutions applied in order,
each one to the output of the previous. -/
def CustomFormat (input : String) : String :=
  (customRules.foldl (fun s rule => replaceAll rule.1 rule.2 s)
    input.toList).asString

/-- Modelled from the spec: `ElideMiddle` lives in `util.cc`, which is not
part of the sources given; per spec §4.2 it returns `text` unchanged when it
fits in `maxWidth` and otherwise replaces a middle span with the marker
`"..."` so that the result is exactly `maxWidth` long, keeping as much of the
start and end as fits. -/
def ElideMiddle (s : String) (width : Nat) : String :=
  if s.length ≤ width then s
  else
    let keep := width - 3
    let front := (keep + 1) / 2
    let back := keep / 2
    (s.toList.take front ++ "...".toList ++
      s.toList.drop (s.length - back)).asString

/-! ### The five operations

Each returns `(new state, bytes written to the real output stream)`. -/

/-- Embeds `LinePrinter::PrintOrBuffer` (lines 161-169). -/
def PrintOrBuffer (st : LinePrinter) (data : String) : LinePrinter × String :=
  if st.console_locked_ then
    ({ st with output_buffer_ := st.output_buffer_ ++ data }, "")
  else
    (st, data)

/-- The text `Print` works with after its first step (lines 102-104): the
argument, rewritten by `CustomFormat` when the reformat mode is `pretty`. -/
def fmtText (cfg : Config) (t : String) : String :=
  if GetReformatMode cfg.reformatEnv = e_reformat_mode.pretty then
    CustomFormat t
  else t

/-- Embeds `LinePrinter::Print` (lines 101-159), POSIX path.  The Windows-only
`WriteConsoleOutput` branch is not modelled; the `\x1B[K` clear-to-end and
the elision to the ioctl-reported width follow lines 143-152. -/
def Print (cfg : Config) (st : LinePrinter) (to_print0 : String)
    (type : LineType) : LinePrinter × String :=
  let to_print := fmtText cfg to_print0
  if st.console_locked_ then
    ({ st with line_buffer_ := to_print, line_type_ := type }, "")
  else if GetStatusPrintMode cfg.statusEnv = e_status_print_mode.multiline then
    (st, to_print ++ "\n")
  else
    let pre := if cfg.smart_terminal_ then "\r" else ""
    if cfg.smart_terminal_ ∧ type = LineType.ELIDE then
      let elided :=
        match cfg.termWidth with
        | Option.some w => ElideMiddle to_print w
        | Option.none => to_print
      ({ st with have_blank_line_ := false }, pre ++ elided ++ "\u001B[K")
    else
      (st, pre ++ to_print ++ "\n")

/-- Embeds `LinePrinter::PrintWithoutNewLine` (lines 171-182). -/
def PrintWithoutNewLine (st : LinePrinter) (to_print : String) :
    LinePrinter × String :=
  let st1 :=
    if st.console_locked_ && !st.line_buffer_.isEmpty then
      { st with
          output_buffer_ := st.output_buffer_ ++ st.line_buffer_ ++ "\n"
          line_buffer_ := "" }
    else st
  let r := if !to_print.isEmpty then PrintOrBuffer st1 to_print else (st1, "")
  ({ r.1 with
      have_blank_line_ :=
        (!to_print.isEmpty && to_print.toList.head? == Option.some '\n') ||
        (to_print.isEmpty && r.1.have_blank_line_) },
   r.2)

/-- Embeds `LinePrinter::PrintOnNewLine` (lines 184-197). -/
def PrintOnNewLine (st : LinePrinter) (to_print : String) :
    LinePrinter × String :=
  let st1 :=
    if st.console_locked_ && !st.line_buffer_.isEmpty then
      { st with
          output_buffer_ := st.output_buffer_ ++ st.line_buffer_ ++ "\n"
          line_buffer_ := "" }
    else st
  let r1 := if !st1.have_blank_line_ then PrintOrBuffer st1 "\n" else (st1, "")
  let r2 :=
    if !to_print.isEmpty then PrintOrBuffer r1.1 to_print else (r1.1, "")
  ({ r2.1 with
      have_blank_line_ :=
        to_print.isEmpty || to_print.toList.getLast? == Option.some '\n' },
   r1.2 ++ r2.2)

/-- Embeds `LinePrinter::SetConsoleLocked` (lines 225-248).  On unlock the C++ code
first clears `console_locked_`, replays `output_buffer_` through
`PrintWithoutNewLine`, re-renders a non-empty `line_buffer_` through `Print`,
then clears both buffers. -/
def SetConsoleLocked (cfg : Config) (st : LinePrinter) (locked : Bool) :
    LinePrinter × String :=
  if locked = st.console_locked_ then (st, "")
  else if locked then
    ({ st with console_locked_ := true }, "\r\u001B[K\r")
  else
    let st1 : LinePrinter := { st with console_locked_ := false }
    let r1 := PrintWithoutNewLine st1 st1.output_buffer_
    let r2 :=
      if !r1.1.line_buffer_.isEmpty then
        Print cfg r1.1 r1.1.line_buffer_ r1.1.line_type_
      else (r1.1, "")
    ({ r2.1 with output_buffer_ := "", line_buffer_ := "" }, r1.2 ++ r2.2)

/-! ### Call sequences -/

/-- One public call to the printer. -/
inductive Op where
  | print (t : String) (k : LineType)
  | pwnl (t : String)
  | ponl (t : String)
  | porb (t : String)
  | lock (b : Bool)
deriving DecidableEq, Repr

/-- Execute one call. -/
def step (cfg : Config) (st : LinePrinter) : Op → LinePrinter × String
  | Op.print t k => Print cfg st t k
  | Op.pwnl t => PrintWithoutNewLine st t
  | Op.ponl t => PrintOnNewLine st t
  | Op.porb t => PrintOrBuffer st t
  | Op.lock b => SetConsoleLocked cfg st b

/-- Execute a call sequence from a given state, concatenating the bytes the
calls write to the real output stream. -/
def runFrom (cfg : Config) (st : LinePrinter) : List Op → LinePrinter × String
  | [] => (st, "")
  | op :: ops =>
      let r := step cfg st op
      let rs := runFrom cfg r.1 ops
      (rs.1, r.2 ++ rs.2)

/-- Execute a call sequence from the constructor state. -/
def run (cfg : Config) (ops : List Op) : LinePrinter × String :=
  runFrom cfg initState ops

/-- A state is reachable when some call sequence from the constructor state
produces it. -/
def Reachable (cfg : Config) (st : LinePrinter) : Prop :=
  ∃ ops : List Op, (run cfg ops).1 = st

/-! ### A byte-level terminal model

Used to make "the cursor is at the start of an empty line" precise: the
current line is kept as the pair (characters left of the cursor, characters
from the cursor to the end of the line); `'\n'` starts a fresh empty line,
`'\r'` moves the cursor to column 0, the escape `ESC [ K` clears from the
cursor to the end of the line, and an ordinary character overwrites the cell
under the cursor and advances. -/

/-- Feed output bytes to the terminal model. -/
def applyBytes : List Char → List Char × List Char → List Char × List Char
  | [], t => t
  | '\u001B' :: '[' :: 'K' :: rest, t => applyBytes rest (t.1, [])
  | '\n' :: rest, _ => applyBytes rest ([], [])
  | '\r' :: rest, t => applyBytes rest ([], t.1 ++ t.2)
  | c :: rest, t => applyBytes rest (t.1 ++ [c], t.2.tail)

/-- After writing `out` on a fresh blank terminal, is the cursor at the
start of an empty line? -/
def cursorAtBlankLine (out : String) : Bool :=
  applyBytes out.toList ([], []) = (([] : List Char), ([] : List Char))

/-! ### Spec-side descriptions (for the refinement claims C4 and C5)

These two definitions follow the wording of spec §4.3 ("Two additional
raw-write operations"), to be compared with the embeddings of the code. -/

/-- Spec §4.3 wording for `PrintWithoutNewLine(text)`: "if locked, first
flush any pending status line into the output buffer (append text + newline,
clear pending); then, if `text` is non-empty, write it raw with no trailing
newline (respecting lock — buffer instead of writing if locked).  Recompute
`hasBlankLine`: true only if `text` is empty and was already blank, or
`text` begins with a newline character." -/
def PrintWithoutNewLine_spec (st : LinePrinter) (text : String) :
    LinePrinter × String :=
  let flushed :=
    if st.console_locked_ && !st.line_buffer_.isEmpty then
      { st with
          output_buffer_ := st.output_buffer_ ++ st.line_buffer_ ++ "\n"
          line_buffer_ := "" }
    else st
  let written :=
    if !text.isEmpty then
      if flushed.console_locked_ then
        ({ flushed with output_buffer_ := flushed.output_buffer_ ++ text }, "")
      else (flushed, text)
    else (flushed, "")
  ({ written.1 with
      have_blank_line_ :=
        (text.isEmpty && st.have_blank_line_) ||
        (!text.isEmpty && text.toList.head? == Option.some '\n') },
   written.2)

/-- Spec §4.3 wording for `PrintOnNewLine(text)`: "same
pending-flush-on-lock behavior; additionally, if not already on a blank
line, first emit a newline to move to one; then write `text` raw (buffered
if locked).  `hasBlankLine` becomes true iff `text` is empty or ends with a
newline." -/
def PrintOnNewLine_spec (st : LinePrinter) (text : String) :
    LinePrinter × String :=
  let flushed :=
    if st.console_locked_ && !st.line_buffer_.isEmpty then
      { st with
          output_buffer_ := st.output_buffer_ ++ st.line_buffer_ ++ "\n"
          line_buffer_ := "" }
    else st
  let moved :=
    if !flushed.have_blank_line_ then
      if flushed.console_locked_ then
        ({ flushed with output_buffer_ := flushed.output_buffer_ ++ "\n" }, "")
      else (flushed, "\n")
    else (flushed, "")
  let written :=
    if !text.isEmpty then
      if moved.1.console_locked_ then
        ({ moved.1 with output_buffer_ := moved.1.output_buffer_ ++ text }, "")
      else (moved.1, text)
    else (moved.1, "")
  ({ written.1 with
      have_blank_line_ :=
        text.isEmpty || text.toList.getLast? == Option.some '\n' },
   moved.2 ++ written.2)


/-! ### Characterization lemmas

Closed forms of each operation in the locked and unlocked states.  All the
claim theorems below are proved by rewriting with these. -/

/-- The bytes a non-buffered `Print` sends to the stream.  They depend only
on the configuration and the arguments, never on the renderer state. -/
def PrintOut (cfg : Config) (t : String) (k : LineType) : String :=
  let fmt := fmtText cfg t
  if GetStatusPrintMode cfg.statusEnv = e_status_print_mode.multiline then
    fmt ++ "\n"
  else
    let pre := if cfg.smart_terminal_ then "\r" else ""
    if cfg.smart_terminal_ ∧ k = LineType.ELIDE then
      pre ++ (match cfg.termWidth with
              | Option.some w => ElideMiddle fmt w
              | Option.none => fmt) ++ "\u001B[K"
    else pre ++ fmt ++ "\n"

theorem porb_locked (st : LinePrinter) (t : String)
    (h : st.console_locked_ = true) :
    PrintOrBuffer st t =
      ({ st with output_buffer_ := st.output_buffer_ ++ t }, "") := by
  simp [PrintOrBuffer, h]

theorem porb_unlocked (st : LinePrinter) (t : String)
    (h : st.console_locked_ = false) :
    PrintOrBuffer st t = (st, t) := by
  simp [PrintOrBuffer, h]

theorem print_locked (cfg : Config) (st : LinePrinter) (t : String)
    (k : LineType) (h : st.console_locked_ = true) :
    Print cfg st t k =
      ({ st with line_buffer_ := fmtText cfg t, line_type_ := k }, "") := by
  simp [Print, h]

theorem print_unlocked (cfg : Config) (st : LinePrinter) (t : String)
    (k : LineType) (h : st.console_locked_ = false) :
    Print cfg st t k =
      ((if GetStatusPrintMode cfg.statusEnv ≠ e_status_print_mode.multiline ∧
            cfg.smart_terminal_ = true ∧ k = LineType.ELIDE then
          { st with have_blank_line_ := false }
        else st),
       PrintOut cfg t k) := by
  simp only [Print, PrintOut, h, Bool.false_eq_true, if_false]
  by_cases hm : GetStatusPrintMode cfg.statusEnv = e_status_print_mode.multiline
  · simp [hm]
  · by_cases hs : cfg.smart_terminal_ = true ∧ k = LineType.ELIDE
    · simp [hm, hs]
    · simp [hm, hs]

@[simp]
theorem isEmpty_empty_str : ("" : String).isEmpty = true := rfl

theorem pwnl_unlocked (st : LinePrinter) (t : String)
    (h : st.console_locked_ = false) :
    PrintWithoutNewLine st t =
      ({ st with
          have_blank_line_ :=
            (!t.isEmpty && t.toList.head? == Option.some '\n') ||
            (t.isEmpty && st.have_blank_line_) },
       t) := by
  by_cases he : t.isEmpty = true
  · have ht := (String.isEmpty_iff t).mp he
    subst ht
    simp [PrintWithoutNewLine, PrintOrBuffer, h, isEmpty_empty_str]
  · have he2 : t.isEmpty = false := by simpa using he
    simp [PrintWithoutNewLine, PrintOrBuffer, h, he2]

theorem pwnl_locked (st : LinePrinter) (t : String)
    (h : st.console_locked_ = true) :
    PrintWithoutNewLine st t =
      ({ st with
          have_blank_line_ :=
            (!t.isEmpty && t.toList.head? == Option.some '\n') ||
            (t.isEmpty && st.have_blank_line_)
          line_buffer_ := ""
          output_buffer_ :=
            (if st.line_buffer_.isEmpty then st.output_buffer_
             else st.output_buffer_ ++ st.line_buffer_ ++ "\n") ++ t },
       "") := by
  by_cases hlb : st.line_buffer_.isEmpty = true
  · have hlb2 := (String.isEmpty_iff _).mp hlb
    by_cases he : t.isEmpty = true
    · have ht := (String.isEmpty_iff t).mp he
      subst ht
      simp [PrintWithoutNewLine, PrintOrBuffer, h, hlb, hlb2,
        isEmpty_empty_str, String.append_empty]
    · have he2 : t.isEmpty = false := by simpa using he
      simp [PrintWithoutNewLine, PrintOrBuffer, h, hlb, hlb2, he2]
  · have hlb2 : st.line_buffer_.isEmpty = false := by simpa using hlb
    by_cases he : t.isEmpty = true
    · have ht := (String.isEmpty_iff t).mp he
      subst ht
      simp [PrintWithoutNewLine, PrintOrBuffer, h, hlb2,
        isEmpty_empty_str, String.append_empty]
    · have he2 : t.isEmpty = false := by simpa using he
      simp [PrintWithoutNewLine, PrintOrBuffer, h, hlb2, he2]

theorem ponl_unlocked (st : LinePrinter) (t : String)
    (h : st.console_locked_ = false) :
    PrintOnNewLine st t =
      ({ st with
          have_blank_line_ :=
            t.isEmpty || t.toList.getLast? == Option.some '\n' },
       (if st.have_blank_line_ then "" else "\n") ++ t) := by
  by_cases hb : st.have_blank_line_ = true
  · by_cases he : t.isEmpty = true
    · have ht := (String.isEmpty_iff t).mp he
      subst ht
      simp [PrintOnNewLine, PrintOrBuffer, h, hb, isEmpty_empty_str]
    · have he2 : t.isEmpty = false := by simpa using he
      simp [PrintOnNewLine, PrintOrBuffer, h, hb, he2, String.empty_append]
  · have hb2 : st.have_blank_line_ = false := by simpa using hb
    by_cases he : t.isEmpty = true
    · have ht := (String.isEmpty_iff t).mp he
      subst ht
      simp [PrintOnNewLine, PrintOrBuffer, h, hb2, isEmpty_empty_str,
        String.append_empty]
    · have he2 : t.isEmpty = false := by simpa using he
      simp [PrintOnNewLine, PrintOrBuffer, h, hb2, he2]

theorem ponl_locked (st : LinePrinter) (t : String)
    (h : st.console_locked_ = true) :
    PrintOnNewLine st t =
      ({ st with
          have_blank_line_ :=
            t.isEmpty || t.toList.getLast? == Option.some '\n'
          line_buffer_ := ""
          output_buffer_ :=
            ((if st.line_buffer_.isEmpty then st.output_buffer_
              else st.output_buffer_ ++ st.line_buffer_ ++ "\n") ++
             (if st.have_blank_line_ then "" else "\n")) ++ t },
       "") := by
  by_cases hlb : st.line_buffer_.isEmpty = true
  · have hlb2 := (String.isEmpty_iff _).mp hlb
    by_cases hb : st.have_blank_line_ = true
    · by_cases he : t.isEmpty = true
      · have ht := (String.isEmpty_iff t).mp he
        subst ht
        simp [PrintOnNewLine, PrintOrBuffer, h, hlb, hlb2, hb,
          isEmpty_empty_str, String.append_empty]
      · have he2 : t.isEmpty = false := by simpa using he
        simp [PrintOnNewLine, PrintOrBuffer, h, hlb, hlb2, hb, he2,
          String.append_empty]
    · have hb2 : st.have_blank_line_ = false := by simpa using hb
      by_cases he : t.isEmpty = true
      · have ht := (String.isEmpty_iff t).mp he
        subst ht
        simp [PrintOnNewLine, PrintOrBuffer, h, hlb, hlb2, hb2,
          isEmpty_empty_str, String.append_empty]
      · have he2 : t.isEmpty = false := by simpa using he
        simp [PrintOnNewLine, PrintOrBuffer, h, hlb, hlb2, hb2, he2,
          String.append_assoc, String.append_empty]
  · have hlb2 : st.line_buffer_.isEmpty = false := by simpa using hlb
    by_cases hb : st.have_blank_line_ = true
    · by_cases he : t.isEmpty = true
      · have ht := (String.isEmpty_iff t).mp he
        subst ht
        simp [PrintOnNewLine, PrintOrBuffer, h, hlb2, hb,
          isEmpty_empty_str, String.append_empty]
      · have he2 : t.isEmpty = false := by simpa using he
        simp [PrintOnNewLine, PrintOrBuffer, h, hlb2, hb, he2,
          String.append_empty]
    · have hb2 : st.have_blank_line_ = false := by simpa using hb
      by_cases he : t.isEmpty = true
      · have ht := (String.isEmpty_iff t).mp he
        subst ht
        simp [PrintOnNewLine, PrintOrBuffer, h, hlb2, hb2,
          isEmpty_empty_str, String.append_empty, String.append_assoc]
      · have he2 : t.isEmpty = false := by simpa using he
        simp [PrintOnNewLine, PrintOrBuffer, h, hlb2, hb2, he2,
          String.append_empty, String.append_assoc]

theorem setLocked_noop (cfg : Config) (st : LinePrinter) (b : Bool)
    (h : b = st.console_locked_) :
    SetConsoleLocked cfg st b = (st, "") := by
  simp [SetConsoleLocked, h]

theorem setLocked_on (cfg : Config) (st : LinePrinter)
    (h : st.console_locked_ = false) :
    SetConsoleLocked cfg st true =
      ({ st with console_locked_ := true }, "\r\u001B[K\r") := by
  simp [SetConsoleLocked, h]

theorem setLocked_off (cfg : Config) (st : LinePrinter)
    (h : st.console_locked_ = true) :
    SetConsoleLocked cfg st false =
      ({ st with
          console_locked_ := false
          have_blank_line_ :=
            if st.line_buffer_.isEmpty = false ∧
               GetStatusPrintMode cfg.statusEnv ≠ e_status_print_mode.multiline ∧
               cfg.smart_terminal_ = true ∧ st.line_type_ = LineType.ELIDE
            then false
            else (!st.output_buffer_.isEmpty &&
                    st.output_buffer_.toList.head? == Option.some '\n') ||
                 (st.output_buffer_.isEmpty && st.have_blank_line_)
          line_buffer_ := ""
          output_buffer_ := "" },
       st.output_buffer_ ++
         (if st.line_buffer_.isEmpty then ""
          else PrintOut cfg st.line_buffer_ st.line_type_)) := by
  by_cases hlb : st.line_buffer_.isEmpty = true
  · have hlb2 := (String.isEmpty_iff _).mp hlb
    simp [SetConsoleLocked, h, pwnl_unlocked, hlb, hlb2, String.append_empty]
  · have hlb2 : st.line_buffer_.isEmpty = false := by simpa using hlb
    by_cases hel : GetStatusPrintMode cfg.statusEnv ≠ e_status_print_mode.multiline ∧
        cfg.smart_terminal_ = true ∧ st.line_type_ = LineType.ELIDE
    · simp [SetConsoleLocked, h, pwnl_unlocked, print_unlocked, hlb2, hel,
        String.append_empty]
    · simp [SetConsoleLocked, h, pwnl_unlocked, print_unlocked, hlb2, hel,
        String.append_empty]

/-! ### The buffer invariant (spec §3): unlocked states have empty buffers -/

/-- An unlocked renderer state has an empty pending line and an empty output
buffer. -/
def BuffersInv (st : LinePrinter) : Prop :=
  st.console_locked_ = false → st.line_buffer_ = "" ∧ st.output_buffer_ = ""

theorem initState_buffersInv : BuffersInv initState := fun _ => ⟨rfl, rfl⟩

theorem print_buffersInv (cfg : Config) (st : LinePrinter) (t : String)
    (k : LineType) (h : BuffersInv st) : BuffersInv (Print cfg st t k).1 := by
  by_cases hl : st.console_locked_ = true
  · rw [print_locked cfg st t k hl]
    intro hc
    simp [hl] at hc
  · have hl2 : st.console_locked_ = false := by simpa using hl
    rw [print_unlocked cfg st t k hl2]
    intro _
    split
    · simpa using h hl2
    · exact h hl2

theorem pwnl_buffersInv (st : LinePrinter) (t : String)
    (h : BuffersInv st) : BuffersInv (PrintWithoutNewLine st t).1 := by
  by_cases hl : st.console_locked_ = true
  · rw [pwnl_locked st t hl]
    intro hc
    simp [hl] at hc
  · have hl2 : st.console_locked_ = false := by simpa using hl
    rw [pwnl_unlocked st t hl2]
    intro _
    simpa using h hl2

theorem ponl_buffersInv (st : LinePrinter) (t : String)
    (h : BuffersInv st) : BuffersInv (PrintOnNewLine st t).1 := by
  by_cases hl : st.console_locked_ = true
  · rw [ponl_locked st t hl]
    intro hc
    simp [hl] at hc
  · have hl2 : st.console_locked_ = false := by simpa using hl
    rw [ponl_unlocked st t hl2]
    intro _
    simpa using h hl2

theorem porb_buffersInv (st : LinePrinter) (t : String)
    (h : BuffersInv st) : BuffersInv (PrintOrBuffer st t).1 := by
  by_cases hl : st.console_locked_ = true
  · rw [porb_locked st t hl]
    intro hc
    simp [hl] at hc
  · have hl2 : st.console_locked_ = false := by simpa using hl
    rw [porb_unlocked st t hl2]
    exact h

theorem setLocked_buffersInv (cfg : Config) (st : LinePrinter) (b : Bool)
    (h : BuffersInv st) : BuffersInv (SetConsoleLocked cfg st b).1 := by
  by_cases hb : b = st.console_locked_
  · rw [setLocked_noop cfg st b hb]
    exact h
  · cases b with
    | true =>
        have hl : st.console_locked_ = false := by
          revert hb
          cases st.console_locked_ <;> simp
        rw [setLocked_on cfg st hl]
        intro hc
        simp at hc
    | false =>
        have hl : st.console_locked_ = true := by
          revert hb
          cases st.console_locked_ <;> simp
        rw [setLocked_off cfg st hl]
        intro _
        exact ⟨rfl, rfl⟩

theorem step_buffersInv (cfg : Config) (st : LinePrinter) (op : Op)
    (h : BuffersInv st) : BuffersInv (step cfg st op).1 := by
  cases op with
  | print t k => exact print_buffersInv cfg st t k h
  | pwnl t => exact pwnl_buffersInv st t h
  | ponl t => exact ponl_buffersInv st t h
  | porb t => exact porb_buffersInv st t h
  | lock b => exact setLocked_buffersInv cfg st b h

theorem runFrom_buffersInv (cfg : Config) (st : LinePrinter) (ops : List Op)
    (h : BuffersInv st) : BuffersInv (runFrom cfg st ops).1 := by
  induction ops generalizing st with
  | nil => exact h
  | cons op ops ih => exact ih (step cfg st op).1 (step_buffersInv cfg st op h)

theorem run_buffersInv (cfg : Config) (ops : List Op) :
    BuffersInv (run cfg ops).1 :=
  runFrom_buffersInv cfg initState ops initState_buffersInv

theorem reachable_buffersInv (cfg : Config) (st : LinePrinter)
    (h : Reachable cfg st) : BuffersInv st := by
  obtain ⟨ops, hops⟩ := h
  exact hops ▸ run_buffersInv cfg ops

/-! ### Concrete instances used by witnesses and counterexamples -/

/-- A plain configuration: non-smart terminal, both environment variables
unset, no terminal width. -/
def cfg0 : Config :=
  { smart_terminal_ := false
    reformatEnv := Option.none
    statusEnv := Option.none
    termWidth := Option.none }

/-- The constructor state with the console locked. -/
def lockedInit : LinePrinter := { initState with console_locked_ := true }

/-- A locked state holding a pending line "p" and buffered output "x". -/
def stL : LinePrinter :=
  { have_blank_line_ := false
    console_locked_ := true
    line_buffer_ := "p"
    line_type_ := LineType.FULL
    output_buffer_ := "x" }

/-! ### The claims -/

/-- Claim C1: while the console is locked, `Print`, `PrintWithoutNewLine`,
`PrintOnNewLine` and `PrintOrBuffer` write no byte to the real output
stream; their content is stored in `line_buffer_` / `output_buffer_`, the
output buffer growing by appending so arrival order is preserved, and the
stored content is emitted to the real stream only by
`SetConsoleLocked false`, which writes the buffered bytes first and then the
pending line through the normal `Print` output.  The only terminal write of
a locked interval is the clear-line sequence at lock time. -/
theorem C1_locked_writes_buffered :
    ∀ (cfg : Config) (st : LinePrinter),
      (st.console_locked_ = false →
        (SetConsoleLocked cfg st true).2 = "\r\u001B[K\r") ∧
      (st.console_locked_ = true →
        (∀ t k, (Print cfg st t k).2 = "" ∧
          (Print cfg st t k).1.line_buffer_ = fmtText cfg t ∧
          (Print cfg st t k).1.output_buffer_ = st.output_buffer_) ∧
        (∀ t, (PrintWithoutNewLine st t).2 = "" ∧
          (PrintWithoutNewLine st t).1.output_buffer_ =
            (if st.line_buffer_.isEmpty then st.output_buffer_
             else st.output_buffer_ ++ st.line_buffer_ ++ "\n") ++ t) ∧
        (∀ t, (PrintOnNewLine st t).2 = "" ∧
          (PrintOnNewLine st t).1.output_buffer_ =
            ((if st.line_buffer_.isEmpty then st.output_buffer_
              else st.output_buffer_ ++ st.line_buffer_ ++ "\n") ++
             (if st.have_blank_line_ then "" else "\n")) ++ t) ∧
        (∀ t, (PrintOrBuffer st t).2 = "" ∧
          (PrintOrBuffer st t).1.output_buffer_ = st.output_buffer_ ++ t) ∧
        ((SetConsoleLocked cfg st false).2 =
          st.output_buffer_ ++
            (if st.line_buffer_.isEmpty then ""
             else PrintOut cfg st.line_buffer_ st.line_type_))) := by
  intro cfg st
  constructor
  · intro h
    rw [setLocked_on cfg st h]
  · intro h
    refine ⟨fun t k => ?_, fun t => ?_, fun t => ?_, fun t => ?_, ?_⟩
    · rw [print_locked cfg st t k h]
      exact ⟨rfl, rfl, rfl⟩
    · rw [pwnl_locked st t h]
      exact ⟨rfl, rfl⟩
    · rw [ponl_locked st t h]
      exact ⟨rfl, rfl⟩
    · rw [porb_locked st t h]
      exact ⟨rfl, rfl⟩
    · rw [setLocked_off cfg st h]

theorem C1_witness :
    (SetConsoleLocked cfg0 initState true).2 = "\r\u001B[K\r" ∧
    (Print cfg0 stL "hello" LineType.FULL).2 = "" ∧
    (PrintWithoutNewLine stL "child").1.output_buffer_ = "xp\nchild" ∧
    (SetConsoleLocked cfg0 stL false).2 = "xp\n" := by
  have h := C1_locked_writes_buffered cfg0 stL
  have h0 := C1_locked_writes_buffered cfg0 initState
  refine ⟨h0.1 rfl, ((h.2 rfl).1 "hello" LineType.FULL).1, ?_, ?_⟩
  · rw [((h.2 rfl).2.1 "child").2]
    decide
  · rw [(h.2 rfl).2.2.2.2]
    decide

/-- Claim C2: in every state reachable by any call sequence, `line_buffer_`
and `output_buffer_` are non-empty only while `console_locked_` is true, and
after `SetConsoleLocked false` returns both are empty. -/
theorem C2_buffers_only_when_locked :
    ∀ (cfg : Config) (ops : List Op),
      ((run cfg ops).1.console_locked_ = false →
        (run cfg ops).1.line_buffer_ = "" ∧
        (run cfg ops).1.output_buffer_ = "") ∧
      ((SetConsoleLocked cfg (run cfg ops).1 false).1.line_buffer_ = "" ∧
       (SetConsoleLocked cfg (run cfg ops).1 false).1.output_buffer_ = "") := by
  intro cfg ops
  refine ⟨run_buffersInv cfg ops, ?_⟩
  by_cases hl : (run cfg ops).1.console_locked_ = true
  · rw [setLocked_off cfg _ hl]
    exact ⟨rfl, rfl⟩
  · have hl2 : (run cfg ops).1.console_locked_ = false := by simpa using hl
    rw [setLocked_noop cfg _ false hl2.symm]
    exact run_buffersInv cfg ops hl2

theorem C2_witness :
    ((run cfg0 []).1.line_buffer_ = "" ∧ (run cfg0 []).1.output_buffer_ = "") ∧
    ((SetConsoleLocked cfg0 (run cfg0 []).1 false).1.line_buffer_ = "" ∧
     (SetConsoleLocked cfg0 (run cfg0 []).1 false).1.output_buffer_ = "") :=
  ⟨(C2_buffers_only_when_locked cfg0 []).1 rfl,
   (C2_buffers_only_when_locked cfg0 []).2⟩

/-- Claim C3 counterexample: from the fresh state, `PrintWithoutNewLine "x"`
(leaving `have_blank_line_ = false`) followed by `Print "y" FULL` on a
non-smart terminal emits "y\n" — output ending in a newline, cursor at the
start of an empty line — yet `have_blank_line_` stays `false`: the flag does
not reflect the cursor, and a `Print` whose output ends with a newline does
not leave it true. -/
theorem C3_counterexample :
    (Print cfg0 (PrintWithoutNewLine initState "x").1 "y"
        LineType.FULL).2.toList.getLast? = Option.some '\n' ∧
    (Print cfg0 (PrintWithoutNewLine initState "x").1 "y"
        LineType.FULL).1.have_blank_line_ = false ∧
    cursorAtBlankLine ((PrintWithoutNewLine initState "x").2 ++
      (Print cfg0 (PrintWithoutNewLine initState "x").1 "y"
        LineType.FULL).2) = true := by
  decide

/-- If the flag already says "blank line" and no pending line can be
flushed, `PrintOnNewLine ""` changes nothing and writes nothing. -/
theorem ponl_empty_noop (s : LinePrinter) (hb : s.have_blank_line_ = true)
    (hlb : s.console_locked_ = true → s.line_buffer_ = "") :
    PrintOnNewLine s "" = (s, "") := by
  by_cases hl : s.console_locked_ = true
  · have h3 : s.line_buffer_.isEmpty = true := (String.isEmpty_iff _).mpr (hlb hl)
    rw [ponl_locked s "" hl]
    obtain ⟨a, b, c, d, e⟩ := s
    simp_all [String.append_empty, String.isEmpty_iff]
  · have hl2 : s.console_locked_ = false := by simpa using hl
    rw [ponl_unlocked s "" hl2]
    obtain ⟨a, b, c, d, e⟩ := s
    simp_all [String.append_empty]

/-- Claim C3 (amended): after `PrintOnNewLine t` the flag equals
"`t` is empty or ends with a newline"; in particular after
`PrintOnNewLine ""` the flag is true, that call emits at most one newline,
and an immediately repeated `PrintOnNewLine ""` is a complete no-op (no
state change, no output, no buffered bytes) — so two consecutive
`PrintOnNewLine ""` calls emit at most one newline between them.  (`Print`'s
newline-terminated branches and `PrintWithoutNewLine`, which looks at the
first character of its text, leave or set the flag without consulting the
cursor, so the flag does not always reflect a blank line.) -/
theorem C3_amended_blank_line_tracking :
    ∀ (st : LinePrinter) (t : String),
      (PrintOnNewLine st t).1.have_blank_line_ =
        (t.isEmpty || t.toList.getLast? == Option.some '\n') ∧
      (PrintOnNewLine st "").1.have_blank_line_ = true ∧
      ((PrintOnNewLine st "").2 = "" ∨ (PrintOnNewLine st "").2 = "\n") ∧
      PrintOnNewLine (PrintOnNewLine st "").1 "" =
        ((PrintOnNewLine st "").1, "") := by
  intro st t
  have flag : ∀ u : String, (PrintOnNewLine st u).1.have_blank_line_ =
      (u.isEmpty || u.toList.getLast? == Option.some '\n') := by
    intro u
    by_cases hl : st.console_locked_ = true
    · rw [ponl_locked st u hl]
    · rw [ponl_unlocked st u (by simpa using hl)]
  have lb2 : (PrintOnNewLine st "").1.console_locked_ = true →
      (PrintOnNewLine st "").1.line_buffer_ = "" := by
    intro hc
    by_cases hl : st.console_locked_ = true
    · rw [ponl_locked st "" hl]
    · have hl2 : st.console_locked_ = false := by simpa using hl
      rw [ponl_unlocked st "" hl2] at hc
      simp [hl2] at hc
  refine ⟨flag t, by simpa using flag "", ?_,
    ponl_empty_noop _ (by simpa using flag "") lb2⟩
  by_cases hl : st.console_locked_ = true
  · rw [ponl_locked st "" hl]
    left
    rfl
  · have hl2 : st.console_locked_ = false := by simpa using hl
    rw [ponl_unlocked st "" hl2]
    by_cases hb : st.have_blank_line_ = true
    · left
      simp [hb, String.append_empty]
    · right
      have hb2 : st.have_blank_line_ = false := by simpa using hb
      simp [hb2, String.append_empty]

/-- Claim C4: for every text and state, `PrintWithoutNewLine` behaves
exactly as the spec describes (pending-line flush into the buffer when
locked, raw write respecting the lock, and the `have_blank_line_`
recomputation from the first character). -/
theorem C4_printWithoutNewLine_correct :
    ∀ (st : LinePrinter) (t : String),
      PrintWithoutNewLine st t = PrintWithoutNewLine_spec st t := by
  intro st t
  by_cases hl : st.console_locked_ = true
  · rw [pwnl_locked st t hl]
    by_cases hlb : st.line_buffer_.isEmpty = true
    · have hlb2 := (String.isEmpty_iff _).mp hlb
      by_cases he : t.isEmpty = true
      · have ht := (String.isEmpty_iff t).mp he
        subst ht
        simp [PrintWithoutNewLine_spec, hl, hlb, hlb2, String.append_empty]
      · have he2 : t.isEmpty = false := by simpa using he
        simp [PrintWithoutNewLine_spec, hl, hlb, hlb2, he2]
    · have hlb2 : st.line_buffer_.isEmpty = false := by simpa using hlb
      by_cases he : t.isEmpty = true
      · have ht := (String.isEmpty_iff t).mp he
        subst ht
        simp [PrintWithoutNewLine_spec, hl, hlb2, String.append_empty]
      · have he2 : t.isEmpty = false := by simpa using he
        simp [PrintWithoutNewLine_spec, hl, hlb2, he2]
  · have hl2 : st.console_locked_ = false := by simpa using hl
    rw [pwnl_unlocked st t hl2]
    by_cases he : t.isEmpty = true
    · have ht := (String.isEmpty_iff t).mp he
      subst ht
      simp [PrintWithoutNewLine_spec, hl2]
    · have he2 : t.isEmpty = false := by simpa using he
      simp [PrintWithoutNewLine_spec, hl2, he2]

/-- Claim C5: for every text and state, `PrintOnNewLine` behaves exactly as
the spec describes (pending-line flush when locked, a single newline when
not already on a blank line, raw write respecting the lock, and
`have_blank_line_` true iff the text is empty or ends with a newline). -/
theorem C5_printOnNewLine_correct :
    ∀ (st : LinePrinter) (t : String),
      PrintOnNewLine st t = PrintOnNewLine_spec st t := by
  intro st t
  by_cases hl : st.console_locked_ = true
  · rw [ponl_locked st t hl]
    by_cases hlb : st.line_buffer_.isEmpty = true
    · have hlb2 := (String.isEmpty_iff _).mp hlb
      by_cases hb : st.have_blank_line_ = true
      · by_cases he : t.isEmpty = true
        · have ht := (String.isEmpty_iff t).mp he
          subst ht
          simp [PrintOnNewLine_spec, hl, hlb, hlb2, hb, String.append_empty]
        · have he2 : t.isEmpty = false := by simpa using he
          simp [PrintOnNewLine_spec, hl, hlb, hlb2, hb, he2,
            String.append_empty]
      · have hb2 : st.have_blank_line_ = false := by simpa using hb
        by_cases he : t.isEmpty = true
        · have ht := (String.isEmpty_iff t).mp he
          subst ht
          simp [PrintOnNewLine_spec, hl, hlb, hlb2, hb2, String.append_empty]
        · have he2 : t.isEmpty = false := by simpa using he
          simp [PrintOnNewLine_spec, hl, hlb, hlb2, hb2, he2,
            String.append_empty, String.append_assoc]
    · have hlb2 : st.line_buffer_.isEmpty = false := by simpa using hlb
      by_cases hb : st.have_blank_line_ = true
      · by_cases he : t.isEmpty = true
        · have ht := (String.isEmpty_iff t).mp he
          subst ht
          simp [PrintOnNewLine_spec, hl, hlb2, hb, String.append_empty]
        · have he2 : t.isEmpty = false := by simpa using he
          simp [PrintOnNewLine_spec, hl, hlb2, hb, he2, String.append_empty]
      · have hb2 : st.have_blank_line_ = false := by simpa using hb
        by_cases he : t.isEmpty = true
        · have ht := (String.isEmpty_iff t).mp he
          subst ht
          simp [PrintOnNewLine_spec, hl, hlb2, hb2, String.append_empty,
            String.append_assoc]
        · have he2 : t.isEmpty = false := by simpa using he
          simp [PrintOnNewLine_spec, hl, hlb2, hb2, he2,
            String.append_empty, String.append_assoc]
  · have hl2 : st.console_locked_ = false := by simpa using hl
    rw [ponl_unlocked st t hl2]
    by_cases hb : st.have_blank_line_ = true
    · by_cases he : t.isEmpty = true
      · have ht := (String.isEmpty_iff t).mp he
        subst ht
        simp [PrintOnNewLine_spec, hl2, hb]
      · have he2 : t.isEmpty = false := by simpa using he
        simp [PrintOnNewLine_spec, hl2, hb, he2, String.empty_append]
    · have hb2 : st.have_blank_line_ = false := by simpa using hb
      by_cases he : t.isEmpty = true
      · have ht := (String.isEmpty_iff t).mp he
        subst ht
        simp [PrintOnNewLine_spec, hl2, hb2, String.append_empty]
      · have he2 : t.isEmpty = false := by simpa using he
        simp [PrintOnNewLine_spec, hl2, hb2, he2]

/-- Claim C6: `SetConsoleLocked b` with `b` equal to the current lock state
changes nothing and writes nothing; and from any reachable unlocked state,
locking and immediately unlocking emits exactly the line-clear escape
sequence at lock time, nothing at unlock, and restores the state exactly. -/
theorem C6_lock_unlock_roundtrip :
    (∀ (cfg : Config) (st : LinePrinter) (b : Bool),
       b = st.console_locked_ → SetConsoleLocked cfg st b = (st, "")) ∧
    (∀ (cfg : Config) (st : LinePrinter), Reachable cfg st →
       st.console_locked_ = false →
       (SetConsoleLocked cfg st true).2 = "\r\u001B[K\r" ∧
       SetConsoleLocked cfg (SetConsoleLocked cfg st true).1 false =
         (st, "")) := by
  refine ⟨fun cfg st b h => setLocked_noop cfg st b h, ?_⟩
  intro cfg st hr hl
  obtain ⟨hlb, hob⟩ := reachable_buffersInv cfg st hr hl
  refine ⟨by rw [setLocked_on cfg st hl], ?_⟩
  rw [setLocked_on cfg st hl]
  rw [setLocked_off cfg _ rfl]
  obtain ⟨a, b, c, d, e⟩ := st
  simp_all [String.append_empty]

theorem C6_witness :
    SetConsoleLocked cfg0 initState false = (initState, "") ∧
    (SetConsoleLocked cfg0 initState true).2 = "\r\u001B[K\r" ∧
    SetConsoleLocked cfg0 (SetConsoleLocked cfg0 initState true).1 false =
      (initState, "") :=
  ⟨C6_lock_unlock_roundtrip.1 cfg0 initState false rfl,
   (C6_lock_unlock_roundtrip.2 cfg0 initState ⟨[], rfl⟩ rfl).1,
   (C6_lock_unlock_roundtrip.2 cfg0 initState ⟨[], rfl⟩ rfl).2⟩

/-- Claim C7: from every reachable unlocked state, the sequence
`SetConsoleLocked true`, `PrintWithoutNewLine "child output"`,
`SetConsoleLocked false` writes exactly the clear-line sequence at lock
time, nothing during the locked write, and exactly the bytes
"child output" at unlock — no content lost or duplicated. -/
theorem C7_lock_write_unlock :
    ∀ (cfg : Config) (st : LinePrinter), Reachable cfg st →
      st.console_locked_ = false →
      (SetConsoleLocked cfg st true).2 = "\r\u001B[K\r" ∧
      (PrintWithoutNewLine (SetConsoleLocked cfg st true).1
        "child output").2 = "" ∧
      (SetConsoleLocked cfg
        (PrintWithoutNewLine (SetConsoleLocked cfg st true).1
          "child output").1
        false).2 = "child output" := by
  intro cfg st hr hl
  obtain ⟨hlb, hob⟩ := reachable_buffersInv cfg st hr hl
  rw [setLocked_on cfg st hl]
  rw [pwnl_locked _ _ rfl]
  refine ⟨rfl, rfl, ?_⟩
  rw [setLocked_off cfg _ rfl]
  obtain ⟨a, b, c, d, e⟩ := st
  simp_all [String.append_empty, String.empty_append]

theorem C7_witness :
    (SetConsoleLocked cfg0 initState true).2 = "\r\u001B[K\r" ∧
    (PrintWithoutNewLine (SetConsoleLocked cfg0 initState true).1
      "child output").2 = "" ∧
    (SetConsoleLocked cfg0
      (PrintWithoutNewLine (SetConsoleLocked cfg0 initState true).1
        "child output").1
      false).2 = "child output" :=
  C7_lock_write_unlock cfg0 initState ⟨[], rfl⟩ rfl

/-- Claim C8: under pretty reformat mode `Print` first rewrites its text
through `CustomFormat` (whose twelve substitutions apply in a fixed order,
each to the output of the previous) and only then proceeds — so elision is
applied to the already-formatted text; and the concrete input
"Building CXX obj foo.cpp.o" is rewritten to the colorized
"building c++ obj foo.cpp" form. -/
theorem C8_pretty_formats_before_print :
    (∀ (cfg : Config) (st : LinePrinter) (t : String) (k : LineType),
       GetReformatMode cfg.reformatEnv = e_reformat_mode.pretty →
       Print cfg st t k =
         Print { cfg with reformatEnv := Option.none } st
           (CustomFormat t) k) ∧
    CustomFormat "Building CXX obj foo.cpp.o" =
      "\u001B[32mbuilding c++ obj \u001B[34mfoo.cpp\u001B[0m" := by
  constructor
  · intro cfg st t k h
    have hf : fmtText cfg t =
        fmtText { cfg with reformatEnv := Option.none } (CustomFormat t) := by
      have h2 : GetReformatMode (Option.none : Option String) =
          e_reformat_mode.none := rfl
      simp [fmtText, h, h2]
    simp only [Print]
    rw [hf]
  · decide

/-- A configuration with the reformat mode set to pretty. -/
def cfgP : Config :=
  { smart_terminal_ := false
    reformatEnv := Option.some "pretty"
    statusEnv := Option.none
    termWidth := Option.none }

theorem C8_witness :
    Print cfgP initState "Building CXX obj foo.cpp.o" LineType.ELIDE =
      Print { cfgP with reformatEnv := Option.none } initState
        (CustomFormat "Building CXX obj foo.cpp.o") LineType.ELIDE :=
  C8_pretty_formats_before_print.1 cfgP initState
    "Building CXX obj foo.cpp.o" LineType.ELIDE (by decide)

/-- Claim C9: the environment-derived modes map exactly as specified
(`"pretty"` and only it yields pretty; `"multiline"`/`"scrolling"` and only
they yield those modes, everything else — including unset — singleline),
and in multiline mode every non-buffered `Print` writes the (possibly
reformatted) text followed by a newline, unconditionally, changing no
state.  (The C++ caching by a `static` local is modelled by the environment
value being a fixed configuration field.) -/
theorem C9_env_modes :
    GetReformatMode Option.none = e_reformat_mode.none ∧
    (∀ v : String,
       GetReformatMode (Option.some v) = e_reformat_mode.pretty ↔
         v = "pretty") ∧
    (∀ v : String, v ≠ "pretty" →
       GetReformatMode (Option.some v) = e_reformat_mode.none) ∧
    GetStatusPrintMode Option.none = e_status_print_mode.singleline ∧
    (∀ v : String,
       GetStatusPrintMode (Option.some v) = e_status_print_mode.multiline ↔
         v = "multiline") ∧
    (∀ v : String,
       GetStatusPrintMode (Option.some v) = e_status_print_mode.scrolling ↔
         v = "scrolling") ∧
    (∀ v : String, v ≠ "multiline" → v ≠ "scrolling" →
       GetStatusPrintMode (Option.some v) = e_status_print_mode.singleline) ∧
    (∀ (cfg : Config) (st : LinePrinter) (t : String) (k : LineType),
       GetStatusPrintMode cfg.statusEnv = e_status_print_mode.multiline →
       st.console_locked_ = false →
       Print cfg st t k = (st, fmtText cfg t ++ "\n")) := by
  refine ⟨rfl, ?_, ?_, rfl, ?_, ?_, ?_, ?_⟩
  · intro v
    constructor
    · intro h
      by_contra hv
      simp [GetReformatMode, hv] at h
    · intro h
      simp [GetReformatMode, h]
  · intro v hv
    simp [GetReformatMode, hv]
  · intro v
    constructor
    · intro h
      by_contra hv
      by_cases hs : v = "scrolling"
      · simp [GetStatusPrintMode, hv, hs] at h
      · simp [GetStatusPrintMode, hv, hs] at h
    · intro h
      subst h
      decide
  · intro v
    constructor
    · intro h
      by_contra hv
      by_cases hm : v = "multiline"
      · simp [GetStatusPrintMode, hm] at h
      · simp [GetStatusPrintMode, hm, hv] at h
    · intro h
      subst h
      decide
  · intro v hm hs
    simp [GetStatusPrintMode, hm, hs]
  · intro cfg st t k hm hl
    rw [print_unlocked cfg st t k hl]
    simp [PrintOut, hm]

/-- A configuration with the status print mode set to multiline. -/
def cfgM : Config :=
  { smart_terminal_ := false
    reformatEnv := Option.none
    statusEnv := Option.some "multiline"
    termWidth := Option.none }

theorem C9_witness :
    GetReformatMode (Option.some "pretty") = e_reformat_mode.pretty ∧
    GetStatusPrintMode (Option.some "other") =
      e_status_print_mode.singleline ∧
    Print cfgM initState "a" LineType.ELIDE = (initState, "a\n") := by
  refine ⟨(C9_env_modes.2.1 "pretty").mpr rfl,
    C9_env_modes.2.2.2.2.2.2.1 "other" (by decide) (by decide), ?_⟩
  rw [C9_env_modes.2.2.2.2.2.2.2 cfgM initState "a" LineType.ELIDE
    (by decide) rfl]
  decide

theorem runFrom_cons (cfg : Config) (st : LinePrinter) (op : Op)
    (ops : List Op) :
    runFrom cfg st (op :: ops) =
      ((runFrom cfg (step cfg st op).1 ops).1,
       (step cfg st op).2 ++ (runFrom cfg (step cfg st op).1 ops).2) := rfl

theorem step_print (cfg : Config) (st : LinePrinter) (t : String)
    (k : LineType) : step cfg st (Op.print t k) = Print cfg st t k := rfl

/-- A `Print` executed while locked just replaces the pending line; in a
call sequence it contributes no output. -/
theorem runFrom_print_locked (cfg : Config) (st : LinePrinter)
    (h : st.console_locked_ = true) (p : String × LineType) (ops : List Op) :
    runFrom cfg st (Op.print p.1 p.2 :: ops) =
      runFrom cfg
        { st with line_buffer_ := fmtText cfg p.1, line_type_ := p.2 }
        ops := by
  rw [runFrom_cons, step_print, print_locked cfg st p.1 p.2 h]
  simp [String.empty_append]

/-- Claim C10: several `Print` calls while locked, with no intervening raw
write, retain only the last `(text, kind)` pair in the pending line, write
nothing, and at unlock exactly that one line is rendered through the normal
`Print` output path; the earlier locked `Print` calls never produce any
output. -/
theorem C10_last_locked_print_wins :
    ∀ (cfg : Config) (st : LinePrinter), st.console_locked_ = true →
      ∀ (prev : List (String × LineType)) (t : String) (k : LineType),
        runFrom cfg st
            ((prev ++ [(t, k)]).map (fun p => Op.print p.1 p.2)) =
          ({ st with line_buffer_ := fmtText cfg t, line_type_ := k },
           "") ∧
        (SetConsoleLocked cfg
            (runFrom cfg st
              ((prev ++ [(t, k)]).map (fun p => Op.print p.1 p.2))).1
            false).2 =
          st.output_buffer_ ++
            (if (fmtText cfg t).isEmpty then ""
             else PrintOut cfg (fmtText cfg t) k) := by
  intro cfg st h prev t k
  have main : ∀ st' : LinePrinter, st'.console_locked_ = true →
      runFrom cfg st'
          ((prev ++ [(t, k)]).map (fun p => Op.print p.1 p.2)) =
        ({ st' with line_buffer_ := fmtText cfg t, line_type_ := k },
         "") := by
    induction prev with
    | nil =>
        intro st' h'
        simp [runFrom, step, print_locked cfg st' t k h']
    | cons p ps ih =>
        intro st' h'
        rw [List.cons_append, List.map_cons, runFrom_print_locked cfg st' h' p]
        rw [ih
          { st' with line_buffer_ := fmtText cfg p.1, line_type_ := p.2 } h']
  refine ⟨main st h, ?_⟩
  rw [main st h]
  rw [setLocked_off cfg
    { st with line_buffer_ := fmtText cfg t, line_type_ := k } h]

theorem C10_witness :
    runFrom cfg0 lockedInit
        (([("a", LineType.ELIDE)] ++ [("b", LineType.FULL)]).map
          (fun p => Op.print p.1 p.2)) =
      ({ lockedInit with line_buffer_ := "b", line_type_ := LineType.FULL },
       "") ∧
    (SetConsoleLocked cfg0
        (runFrom cfg0 lockedInit
          (([("a", LineType.ELIDE)] ++ [("b", LineType.FULL)]).map
            (fun p => Op.print p.1 p.2))).1
        false).2 = "b\n" := by
  have h := C10_last_locked_print_wins cfg0 lockedInit rfl
    [("a", LineType.ELIDE)] "b" LineType.FULL
  refine ⟨?_, ?_⟩
  · rw [h.1]
    decide
  · rw [h.2]
    decide
